import Mathlib

/-!
Shallow embedding of the authenticated API-access layer of the
`socialmediajs2` client: the session store kept in `localStorage`
(bearer token, API key, serialized user), the auth client
(`login`, `createApiKey`, `ensureApiKey`, `logout`, `isAuthenticated`,
`getCurrentUser`, `isValidNoroffEmail`), the request-header builder
(`getAuthHeaders` from `js/api/config.js`), and the posts service's
payload/URL construction (`createPost`, `updatePost`, `getPosts` from
the posts service, and the tag/media preprocessing in
`main.js`'s `handleSavePost`).

JavaScript `string | null` values read out of `localStorage` are
modelled as `Option String`; JS truthiness of such a value (`null` and
`''` are falsy) is the predicate `truthy`.
-/

namespace SocialMedia

/-- JS truthiness of a `string | null` value: `null` and `""` are falsy. -/
def truthy : Option String → Bool
  | none => false
  | some s => s ≠ ""

/-- The embedding of `String.prototype.toLowerCase` for the ASCII
range: each character in `A`-`Z` is shifted to its lowercase form. -/
def jsCharToLower (c : Char) : Char :=
  if 65 ≤ c.toNat ∧ c.toNat ≤ 90 then Char.ofNat (c.toNat + 32) else c

/-- `String.prototype.toLowerCase` (restricted to the ASCII mapping,
which covers every string appearing in the source's allow-list). -/
def jsToLowerCase (s : String) : String :=
  String.mk (s.data.map jsCharToLower)

/-- `String.prototype.endsWith(suffix)`. -/
def jsEndsWith (s suffix : String) : Bool :=
  List.isSuffixOf suffix.data s.data

/-- A character JS `String.prototype.trim` removes (the ASCII
whitespace characters actually occurring in the repository's data). -/
def jsIsWhitespace (c : Char) : Bool :=
  c = ' ' || c = '\t' || c = '\n' || c = '\r'

/-- `String.prototype.trim`: strip leading and trailing whitespace. -/
def jsTrim (s : String) : String :=
  String.mk (((s.data.dropWhile jsIsWhitespace).reverse.dropWhile jsIsWhitespace).reverse)

/-- `String.prototype.split(sep)` for a one-character separator (the
source only ever splits on `","`). -/
def jsSplit (s : String) (sep : Char) : List String :=
  (s.data.splitOn sep).map String.mk

/-- JS `a || b` for a possibly-missing string `a`: the fallback `b` is
used when `a` is `null`/absent or the empty string. -/
def jsOr (o : Option String) (fallback : String) : String :=
  match o with
  | some s => if s ≠ "" then s else fallback
  | none => fallback

/-- JS `a || b` for a plain string `a` (`""` is falsy). -/
def jsOrStr (a b : String) : String :=
  if a ≠ "" then a else b

/-- The `localStorage` session state: the three entries written by the
auth service, keys `authToken`, `apiKey`, `userData`.  `none` means the
key is absent; `some ""` means the key holds the empty string. -/
structure Store where
  authToken : Option String
  apiKey : Option String
  userData : Option String
  deriving Repr, DecidableEq

/-- The empty storage state (fresh browser profile). -/
def Store.empty : Store := ⟨none, none, none⟩

/-- `AuthService.isAuthenticated` (identical in `src/js/api/auth.js`
lines 130-134 and `src/unnamed/part_001` lines 171-175):
`return !!(token && apiKey)` over the two `localStorage` reads. -/
def isAuthenticated (s : Store) : Bool :=
  truthy s.authToken && truthy s.apiKey

/-- `AuthService.logout`: removes the three `localStorage` entries.
It is a pure store transformer: the source performs no fetch. -/
def logout (_s : Store) : Store := ⟨none, none, none⟩

/-- `AuthService.getCurrentUser`:
`return userData ? JSON.parse(userData) : null`.  The parsed user
object is represented by the serialized string it was parsed from. -/
def getCurrentUser (s : Store) : Option String :=
  match s.userData with
  | some u => if u ≠ "" then some u else none
  | none => none

/-- `AuthService.isValidNoroffEmail` (`src/js/api/auth.js` lines
150-153): `noroffDomains.some(domain => email.toLowerCase().endsWith(domain))`
over the fixed list `['@noroff.no', '@stud.noroff.no']`. -/
def isValidNoroffEmail (email : String) : Bool :=
  let noroffDomains := ["@noroff.no", "@stud.noroff.no"]
  noroffDomains.any (fun domain => jsEndsWith (jsToLowerCase email) domain)

/-- The header set produced by `getAuthHeaders` in `js/api/config.js`:
a `Content-Type` entry plus two optional entries. -/
structure Headers where
  contentType : String
  authorization : Option String
  xNoroffApiKey : Option String
  deriving Repr, DecidableEq

/-- `getAuthHeaders` (`js/api/config.js` lines 417-432): starts from
`API_CONFIG.HEADERS` and adds `Authorization: Bearer <token>` when the
`authToken` read is truthy and `X-Noroff-API-Key` when the `apiKey`
read is truthy. -/
def getAuthHeaders (s : Store) : Headers :=
  { contentType := "application/json"
    authorization :=
      match s.authToken with
      | some token => if token ≠ "" then some ("Bearer " ++ token) else none
      | none => none
    xNoroffApiKey :=
      match s.apiKey with
      | some apiKey => if apiKey ≠ "" then some apiKey else none
      | none => none }

/-- The `media` object sent inside a post payload:
`{ url: ..., alt: ... }`. -/
structure MediaObj where
  url : String
  alt : String
  deriving Repr, DecidableEq

/-- The JSON body sent by `PostsService.createPost` / `updatePost`:
`title`, `body`, `tags`, and an optional `media` object (`none` means
the field is absent from the payload, not `null`). -/
structure PostPayload where
  title : String
  body : String
  tags : List String
  media : Option MediaObj
  deriving Repr, DecidableEq

/-- The payload built by `PostsService.createPost` (`js/api/posts.js`,
lines 275-288 of the posts-service source): trims `title` and `body`,
keeps only tags that are non-empty after trimming (trimmed), and adds
a `media` object only when `media && media.trim()` is truthy, with
`alt: title || 'Post media'`. -/
def createPostPayload (title body : String) (tags : List String)
    (media : Option String) : PostPayload :=
  { title := jsTrim title
    body := jsTrim body
    tags := (tags.filter (fun tag => (jsTrim tag).length > 0)).map (fun tag => jsTrim tag)
    media :=
      match media with
      | some m => if m ≠ "" ∧ jsTrim m ≠ "" then some ⟨jsTrim m, jsOrStr title "Post media"⟩ else none
      | none => none }

/-- The payload built by `PostsService.updatePost`
(lines 319-332 of the posts-service source); textually identical
payload construction to `createPost`. -/
def updatePostPayload (title body : String) (tags : List String)
    (media : Option String) : PostPayload :=
  { title := jsTrim title
    body := jsTrim body
    tags := (tags.filter (fun tag => (jsTrim tag).length > 0)).map (fun tag => jsTrim tag)
    media :=
      match media with
      | some m => if m ≠ "" ∧ jsTrim m ≠ "" then some ⟨jsTrim m, jsOrStr title "Post media"⟩ else none
      | none => none }

/-- The tag preprocessing in `SocialMediaApp.handleSavePost`
(`js/main.js` lines 370-381): the tag field value is trimmed, and if
truthy is split on `,`, each piece trimmed, empty pieces dropped. -/
def handleSavePostTags (tagsField : String) : List String :=
  let tagsInput := jsTrim tagsField
  if tagsInput ≠ "" then
    ((jsSplit tagsInput ',').map (fun tag => jsTrim tag)).filter (fun tag => tag ≠ "")
  else []

/-- The media preprocessing in `handleSavePost`: the field value is
trimmed and passed as `media || null`. -/
def handleSavePostMedia (mediaField : String) : Option String :=
  let media := jsTrim mediaField
  if media ≠ "" then some media else none

/-- `handleSavePost` feeding `createPost`: returns `none` when the
guard `if (!title || !body)` aborts the save, else the payload the
posts service builds from the preprocessed form fields. -/
def handleSaveCreatePayload (titleField bodyField tagsField mediaField : String) :
    Option PostPayload :=
  let title := jsTrim titleField
  let body := jsTrim bodyField
  if title = "" ∨ body = "" then none
  else some (createPostPayload title body (handleSavePostTags tagsField)
    (handleSavePostMedia mediaField))

/-- `API_CONFIG.BASE_URL` from `js/api/config.js`. -/
def BASE_URL : String := "https://v2.api.noroff.dev"

/-- `API_CONFIG.ENDPOINTS.POSTS`. -/
def POSTS_ENDPOINT : String := "/social/posts"

/-- `buildApiUrl` from `js/api/config.js`. -/
def buildApiUrl (endpoint : String) : String := BASE_URL ++ endpoint

/-- One hexadecimal digit, uppercase, as used by percent-encoding:
codes 48-57 for `0`-`9`, codes 65-70 for `A`-`F`. -/
def hexDigit (n : Nat) : Char :=
  if n < 10 then Char.ofNat (48 + n) else Char.ofNat (55 + n)

/-- The UTF-8 bytes of a character, as `Nat`s. -/
def utf8Bytes (c : Char) : List Nat :=
  let n := c.toNat
  if n < 128 then [n]
  else if n < 2048 then [192 ||| (n >>> 6), 128 ||| (n &&& 63)]
  else if n < 65536 then
    [224 ||| (n >>> 12), 128 ||| ((n >>> 6) &&& 63), 128 ||| (n &&& 63)]
  else
    [240 ||| (n >>> 18), 128 ||| ((n >>> 12) &&& 63),
     128 ||| ((n >>> 6) &&& 63), 128 ||| (n &&& 63)]

/-- `%XX` for one byte. -/
def percentEncodeByte (b : Nat) : String :=
  String.mk ['%', hexDigit (b / 16), hexDigit (b % 16)]

/-- ASCII letter or digit. -/
def isUriAlnum (c : Char) : Bool :=
  (48 ≤ c.toNat ∧ c.toNat ≤ 57) ∨ (65 ≤ c.toNat ∧ c.toNat ≤ 90) ∨
    (97 ≤ c.toNat ∧ c.toNat ≤ 122)

/-- JS `encodeURIComponent`: keeps ASCII alphanumerics and
`- _ . ! ~ * ' ( )`, percent-encodes the UTF-8 bytes of everything
else.  (Char code 39 is the apostrophe.) -/
def encodeURIComponent (s : String) : String :=
  String.join (s.data.map (fun c =>
    if isUriAlnum c || c ∈ ['-', '_', '.', '!', '~', '*', '(', ')'] || c.toNat = 39
    then String.mk [c]
    else String.join ((utf8Bytes c).map percentEncodeByte)))

/-- The `application/x-www-form-urlencoded` serialization used by
`URLSearchParams`: space becomes `+`; ASCII alphanumerics and
`* - . _` pass through; everything else is percent-encoded. -/
def formEncode (s : String) : String :=
  String.join (s.data.map (fun c =>
    if c = ' ' then "+"
    else if isUriAlnum c || c ∈ ['*', '-', '.', '_'] then String.mk [c]
    else String.join ((utf8Bytes c).map percentEncodeByte)))

/-- The `URLSearchParams` built at the top of `PostsService.getPosts`
(`js/api/posts.js` lines 198-208): `limit`, `page`, the three include
flags, and `_tag` appended when `tag` is truthy. -/
def postsListParams (limit page : Nat) (tag : String) : List (String × String) :=
  [("limit", toString limit), ("page", toString page),
   ("_author", "true"), ("_comments", "true"), ("_reactions", "true")]
  ++ (if tag ≠ "" then [("_tag", tag)] else [])

/-- `URLSearchParams.toString()`. -/
def serializeParams (ps : List (String × String)) : String :=
  String.intercalate "&" (ps.map (fun p => formEncode p.1 ++ "=" ++ formEncode p.2))

/-- The request URL built by `PostsService.getPosts` (lines 210-215 of
the posts-service source): the listing URL, overwritten with the
search-endpoint URL when `search` is truthy. -/
def getPostsUrl (limit page : Nat) (tag search : String) : String :=
  if search ≠ "" then
    buildApiUrl POSTS_ENDPOINT ++ "/search?q=" ++ encodeURIComponent search
      ++ "&" ++ serializeParams (postsListParams limit page tag)
  else
    buildApiUrl POSTS_ENDPOINT ++ "?" ++ serializeParams (postsListParams limit page tag)

/-- An HTTP response as the client sees it after `response.json()`:
the numeric status and the parsed JSON body. -/
structure HttpResp (β : Type) where
  status : Nat
  body : β
  deriving Repr, DecidableEq

/-- `Response.ok`: status in the 2xx range. -/
def respOk {β : Type} (r : HttpResp β) : Bool :=
  200 ≤ r.status && r.status ≤ 299

/-- The outcome of one `fetch` (plus `response.json()`): `.error msg`
when the transport threw (no response), else the response. -/
abbrev FetchOutcome (β : Type) := Except String (HttpResp β)

/-- The parts of the login response's `data.data` object that the
source reads: `accessToken`, plus the serialized object itself
(`JSON.stringify(data.data)`), which is what gets persisted. -/
structure LoginData where
  accessToken : Option String
  userJson : String
  deriving Repr, DecidableEq

/-- The parsed login response body: `data.errors?.[0]?.message` and
the optional `data.data` object. -/
structure LoginBody where
  errorsHead : Option String
  data : Option LoginData
  deriving Repr, DecidableEq

/-- The parsed API-key response body: `data.errors?.[0]?.message` and
`data.data?.key`. -/
structure KeyBody where
  errorsHead : Option String
  dataKey : Option String
  deriving Repr, DecidableEq

/-- The error kinds thrown by `AuthService.createApiKey` in
`src/unnamed/part_001` lines 114-155, one constructor per thrown
message shape: 401, 500, the generic non-2xx branch carrying the final
message string, the rethrown transport error, and the `2xx` body with
no key. -/
inductive KeyError where
  | unauthenticated
  | serviceUnavailable
  | keyProvisioningFailed (detail : String)
  | networkError (message : String)
  | noKeyReturned
  deriving Repr, DecidableEq

/-- `AuthService.createApiKey` from `src/unnamed/part_001` lines
114-155 (the variant the spec calls authoritative): non-2xx statuses
are mapped to `Unauthorized` on exactly 401, `Server error` on exactly
500, and otherwise to the generic failure carrying
`data.errors?.[0]?.message || ...`; a transport error is rethrown; a
2xx body with a truthy `data.data.key` persists the key, else the
`No API key returned` error is thrown. -/
def createApiKeyStrict (s : Store) (resp : FetchOutcome KeyBody) : Except KeyError Store :=
  match resp with
  | .error msg => .error (.networkError msg)
  | .ok r =>
    if respOk r = false then
      if r.status = 401 then .error .unauthenticated
      else if r.status = 500 then .error .serviceUnavailable
      else .error (.keyProvisioningFailed
        (jsOr r.body.errorsHead ("API key creation failed (" ++ toString r.status ++ ")")))
    else if truthy r.body.dataKey then
      .ok { s with apiKey := r.body.dataKey }
    else .error .noKeyReturned

/-- `AuthService.ensureApiKey` from `src/unnamed/part_001` lines
98-107: skips the request when a truthy key is already stored.  The
boolean records whether a key-issuance request was actually sent. -/
def ensureApiKey (s : Store) (resp : FetchOutcome KeyBody) : Except KeyError Store × Bool :=
  if truthy s.apiKey then (.ok s, false) else (createApiKeyStrict s resp, true)

/-- `AuthService.createApiKey` from `src/js/api/auth.js` lines 93-114:
every failure is caught and swallowed (`console.error`), so the call
always returns; the store changes only on a 2xx body with a truthy
key. -/
def createApiKeyLenient (s : Store) (resp : FetchOutcome KeyBody) : Store :=
  match resp with
  | .error _ => s
  | .ok r =>
    if respOk r = false then s
    else if truthy r.body.dataKey then { s with apiKey := r.body.dataKey }
    else s

/-- What `login` produces for its caller: the parsed body on the
normal path, or a thrown `Login failed: ...` error. -/
inductive LoginResult where
  | success (body : LoginBody)
  | failure (message : String)
  deriving Repr, DecidableEq

/-- `AuthService.login` from `src/unnamed/part_001` lines 59-91: on a
2xx response whose `data.data?.accessToken` is truthy it stores the
token and the serialized user, then runs `ensureApiKey` inside a
`try`/`catch` that logs and continues.  The final boolean records
whether a key-issuance request was sent. -/
def loginV2 (s : Store) (loginResp : FetchOutcome LoginBody)
    (keyResp : FetchOutcome KeyBody) : LoginResult × Store × Bool :=
  match loginResp with
  | .error msg => (.failure ("Login failed: " ++ msg), s, false)
  | .ok r =>
    if respOk r = false then
      (.failure ("Login failed: " ++ jsOr r.body.errorsHead "Login failed"), s, false)
    else
      match r.body.data with
      | some d =>
        if truthy d.accessToken then
          let s1 : Store := { s with authToken := d.accessToken, userData := some d.userJson }
          match ensureApiKey s1 keyResp with
          | (.ok s2, req) => (.success r.body, s2, req)
          | (.error _, req) => (.success r.body, s1, req)
        else (.success r.body, s, false)
      | none => (.success r.body, s, false)

/-- `AuthService.login` from `src/js/api/auth.js` lines 59-86: same
token/user storage, then `await this.createApiKey()` — whose own
`catch` swallows every failure. -/
def loginV1 (s : Store) (loginResp : FetchOutcome LoginBody)
    (keyResp : FetchOutcome KeyBody) : LoginResult × Store × Bool :=
  match loginResp with
  | .error msg => (.failure ("Login failed: " ++ msg), s, false)
  | .ok r =>
    if respOk r = false then
      (.failure ("Login failed: " ++ jsOr r.body.errorsHead "Login failed"), s, false)
    else
      match r.body.data with
      | some d =>
        if truthy d.accessToken then
          let s1 : Store := { s with authToken := d.accessToken, userData := some d.userJson }
          (.success r.body, createApiKeyLenient s1 keyResp, true)
        else (.success r.body, s, false)
      | none => (.success r.body, s, false)

end SocialMedia

namespace SocialMedia

/-- C1: for every storage state, `isAuthenticated()` is true iff both
the stored bearer token and the stored API key are present and
non-empty; when either entry is absent or empty it is false. -/
theorem isAuthenticated_iff_nonempty (s : Store) :
    isAuthenticated s = true ↔
      ((∃ t, s.authToken = some t ∧ t ≠ "") ∧ (∃ k, s.apiKey = some k ∧ k ≠ "")) := by
  constructor
  · intro h
    simp only [isAuthenticated, Bool.and_eq_true] at h
    obtain ⟨h1, h2⟩ := h
    constructor
    · cases ht : s.authToken with
      | none => rw [ht] at h1; simp [truthy] at h1
      | some t =>
        refine ⟨t, rfl, ?_⟩
        rw [ht] at h1
        simpa [truthy] using h1
    · cases hk : s.apiKey with
      | none => rw [hk] at h2; simp [truthy] at h2
      | some k =>
        refine ⟨k, rfl, ?_⟩
        rw [hk] at h2
        simpa [truthy] using h2
  · rintro ⟨⟨t, ht, htne⟩, ⟨k, hk, hkne⟩⟩
    simp [isAuthenticated, truthy, ht, hk, htne, hkne]

/-- C7: the email-domain predicate is a pure case-insensitive suffix
match against the fixed allow-list `@noroff.no`, `@stud.noroff.no`;
it accepts `"X@STUD.NOROFF.NO"` and rejects `"x@gmail.com"`. -/
theorem isValidNoroffEmail_spec :
    (∀ email : String,
        isValidNoroffEmail email = true ↔
          (jsEndsWith (jsToLowerCase email) "@noroff.no" = true ∨
           jsEndsWith (jsToLowerCase email) "@stud.noroff.no" = true))
    ∧ isValidNoroffEmail "X@STUD.NOROFF.NO" = true
    ∧ isValidNoroffEmail "x@gmail.com" = false := by
  refine ⟨fun email => ?_, by decide, by decide⟩
  simp [isValidNoroffEmail, List.any]

/-- C9: from every storage state, `logout` removes all three session
entries and is a pure store transformer (no network effect is modelled
because the source performs none); immediately afterwards
`getCurrentUser` is absent and `isAuthenticated` is false. -/
theorem logout_clears_session (s : Store) :
    logout s = Store.empty
    ∧ (logout s).authToken = none
    ∧ (logout s).apiKey = none
    ∧ (logout s).userData = none
    ∧ getCurrentUser (logout s) = none
    ∧ isAuthenticated (logout s) = false := by
  refine ⟨rfl, rfl, rfl, rfl, rfl, rfl⟩

/-- A string has positive length exactly when it is not `""`. -/
theorem string_length_pos_iff (s : String) : s.length > 0 ↔ s ≠ "" := by
  cases s with
  | mk data =>
    constructor
    · intro h he
      have : data = [] := by
        have := congrArg String.data he
        simpa using this
      subst this
      simp [String.length] at h
    · intro h
      have hd : data ≠ [] := by
        intro hnil
        exact h (by simp [hnil])
      have : 0 < data.length := List.length_pos.mpr hd
      simpa [String.length] using this

/-- The tag pipeline of `createPost`/`updatePost` — filter on trimmed
non-emptiness, then trim — equals: trim every tag, drop the empties. -/
theorem tags_filter_map (tags : List String) :
    (tags.filter (fun tag => (jsTrim tag).length > 0)).map (fun tag => jsTrim tag)
      = (tags.map (fun tag => jsTrim tag)).filter (fun tag => tag ≠ "") := by
  induction tags with
  | nil => rfl
  | cons a l ih =>
    by_cases h : jsTrim a = ""
    · have hlen : ¬ ((jsTrim a).length > 0) := by
        simp [string_length_pos_iff, h]
      simp only [List.filter_cons, List.map_cons]
      rw [if_neg (by simpa using hlen), if_neg (by simpa using h), ih]
    · have hlen : (jsTrim a).length > 0 := (string_length_pos_iff _).mpr h
      simp only [List.filter_cons, List.map_cons]
      rw [if_pos (by simpa using hlen), List.map_cons, ih, if_pos (by simpa using h)]

/-- C4: in every post create or update payload each submitted tag is
whitespace-trimmed and tags empty after trimming are dropped; the raw
tag field `"a, , b ,"` yields exactly `["a", "b"]`; `title` and `body`
are likewise trimmed. -/
theorem post_tags_trimmed_and_filtered :
    (∀ (title body : String) (tags : List String) (media : Option String),
        (createPostPayload title body tags media).tags
            = (tags.map (fun tag => jsTrim tag)).filter (fun tag => tag ≠ "")
        ∧ (updatePostPayload title body tags media).tags
            = (tags.map (fun tag => jsTrim tag)).filter (fun tag => tag ≠ "")
        ∧ (createPostPayload title body tags media).title = jsTrim title
        ∧ (createPostPayload title body tags media).body = jsTrim body
        ∧ (updatePostPayload title body tags media).title = jsTrim title
        ∧ (updatePostPayload title body tags media).body = jsTrim body)
    ∧ handleSavePostTags "a, , b ," = ["a", "b"]
    ∧ (handleSaveCreatePayload "T" "B" "a, , b ," "").map PostPayload.tags
        = some ["a", "b"] := by
  refine ⟨fun title body tags media =>
    ⟨tags_filter_map tags, tags_filter_map tags, rfl, rfl, rfl, rfl⟩, by decide, by decide⟩

/-- C5: the `media` field is omitted from the payload exactly when the
supplied media URL is absent, empty, or whitespace-only; a URL that is
non-empty after trimming yields a media object with the trimmed URL. -/
theorem post_media_omitted_iff_blank
    (title body : String) (tags : List String) (media : Option String) :
    ((createPostPayload title body tags media).media = none ↔ jsTrim (media.getD "") = "")
    ∧ ((updatePostPayload title body tags media).media = none ↔ jsTrim (media.getD "") = "")
    ∧ (∀ m, media = some m → jsTrim m ≠ "" →
        (createPostPayload title body tags media).media
            = some ⟨jsTrim m, jsOrStr title "Post media"⟩
        ∧ (updatePostPayload title body tags media).media
            = some ⟨jsTrim m, jsOrStr title "Post media"⟩) := by
  have hkey : ∀ m : String, jsTrim m = "" → (m ≠ "" ∧ jsTrim m ≠ "") → False := by
    intro m hm hc
    exact hc.2 hm
  have hempty : jsTrim "" = "" := rfl
  refine ⟨?_, ?_, ?_⟩
  · cases media with
    | none => simp [createPostPayload, hempty]
    | some m =>
      simp only [createPostPayload, Option.getD]
      by_cases h : jsTrim m = ""
      · rw [if_neg (hkey m h)]
        simp [h]
      · have hm : m ≠ "" := by
          intro he
          exact h (by rw [he]; exact hempty)
        rw [if_pos ⟨hm, h⟩]
        simp [h]
  · cases media with
    | none => simp [updatePostPayload, hempty]
    | some m =>
      simp only [updatePostPayload, Option.getD]
      by_cases h : jsTrim m = ""
      · rw [if_neg (hkey m h)]
        simp [h]
      · have hm : m ≠ "" := by
          intro he
          exact h (by rw [he]; exact hempty)
        rw [if_pos ⟨hm, h⟩]
        simp [h]
  · rintro m rfl h
    have hm : m ≠ "" := by
      intro he
      exact h (by rw [he]; exact hempty)
    constructor
    · simp only [createPostPayload]
      rw [if_pos ⟨hm, h⟩]
    · simp only [updatePostPayload]
      rw [if_pos ⟨hm, h⟩]

/-- Witness for C5 at concrete inputs: a whitespace-only URL is
omitted; a padded URL is kept with its trimmed form; an empty `title`
falls back to the `'Post media'` alt text. -/
theorem post_media_omitted_iff_blank_witness :
    (createPostPayload "T" "B" [] (some "  ")).media = none
    ∧ (createPostPayload "T" "B" [] (some " x ")).media
        = some ⟨jsTrim " x ", jsOrStr "T" "Post media"⟩
    ∧ (updatePostPayload "" "B" [] (some "u")).media
        = some ⟨jsTrim "u", jsOrStr "" "Post media"⟩ :=
  ⟨(post_media_omitted_iff_blank "T" "B" [] (some "  ")).1.mpr (by decide),
   ((post_media_omitted_iff_blank "T" "B" [] (some " x ")).2.2 " x " rfl (by decide)).1,
   ((post_media_omitted_iff_blank "" "B" [] (some "u")).2.2 "u" rfl (by decide)).2⟩

/-- C6: with a non-empty search query, `getPosts` builds its request
on the dedicated search endpoint (`/social/posts/search`) with the
query sent as `q` plus the same serialized pagination parameters as
the listing endpoint, and the resulting URL differs from every
plain-listing URL; with an empty query the plain listing endpoint is
used. -/
theorem getPosts_search_endpoint_used (limit page : Nat) (tag search : String) :
    (search ≠ "" →
      getPostsUrl limit page tag search
        = buildApiUrl POSTS_ENDPOINT ++ "/search?q=" ++ encodeURIComponent search
            ++ "&" ++ serializeParams (postsListParams limit page tag)
      ∧ ∀ (limit2 page2 : Nat) (tag2 : String),
          getPostsUrl limit page tag search ≠ getPostsUrl limit2 page2 tag2 "")
    ∧ (search = "" →
      getPostsUrl limit page tag search
        = buildApiUrl POSTS_ENDPOINT ++ "?"
            ++ serializeParams (postsListParams limit page tag)) := by
  constructor
  · intro h
    constructor
    · simp [getPostsUrl, h]
    · intro limit2 page2 tag2 heq
      simp only [getPostsUrl, ne_eq, h, not_false_eq_true, if_true,
        not_true_eq_false, if_false, if_neg, reduceIte] at heq
      have hd := congrArg String.data heq
      simp only [buildApiUrl, String.data_append, List.append_assoc] at hd
      have h1 := List.append_cancel_left hd
      have h2 := List.append_cancel_left h1
      simp only [show "/search?q=".data = '/' :: "search?q=".data from rfl,
        show "?".data = ['?'] from rfl] at h2
      simp at h2
  · intro h
    simp [getPostsUrl, h]

/-- Witness for C6 at `getPosts({searchQuery: "cats"})` with the
default pagination: the search endpoint carries `q=cats` and the
standard parameters, and the URL is not a listing URL. -/
theorem getPosts_search_endpoint_used_witness :
    getPostsUrl 12 1 "" "cats"
      = buildApiUrl POSTS_ENDPOINT ++ "/search?q=" ++ encodeURIComponent "cats"
          ++ "&" ++ serializeParams (postsListParams 12 1 "")
    ∧ getPostsUrl 12 1 "" "cats" ≠ getPostsUrl 12 1 "" ""
    ∧ getPostsUrl 12 1 "" ""
        = buildApiUrl POSTS_ENDPOINT ++ "?" ++ serializeParams (postsListParams 12 1 "")
    ∧ getPostsUrl 12 1 "" "cats"
        = "https://v2.api.noroff.dev/social/posts/search?q=cats&limit=12&page=1&_author=true&_comments=true&_reactions=true" := by
  refine ⟨((getPosts_search_endpoint_used 12 1 "" "cats").1 (by decide)).1,
    ((getPosts_search_endpoint_used 12 1 "" "cats").1 (by decide)).2 12 1 "",
    (getPosts_search_endpoint_used 12 1 "" "").2 rfl,
    by decide⟩

/-- When the strict key-provisioning variant fails, the lenient
variant (which swallows the same failure conditions) leaves the store
unchanged. -/
theorem lenient_unchanged_of_strict_fails (st : Store) (resp : FetchOutcome KeyBody)
    (e : KeyError) (h : createApiKeyStrict st resp = .error e) :
    createApiKeyLenient st resp = st := by
  cases resp with
  | error msg => rfl
  | ok r =>
    by_cases hok : respOk r = false
    · simp [createApiKeyLenient, hok]
    · by_cases hkey : truthy r.body.dataKey = true
      · exfalso
        simp [createApiKeyStrict, hok, hkey] at h
      · simp [createApiKeyLenient, hok, hkey]

/-- C2: on a 2xx token exchange carrying an access token, login
succeeds and the token and user stay stored even when the API-key
provisioning step fails (e.g. with a 500); the failure is not
propagated out of `login` and does not roll anything back, and
`isAuthenticated` is still false because no key is stored.  Proved
for both `AuthService` variants in the source. -/
theorem login_key_failure_not_propagated
    (sa su : Option String) (r : HttpResp LoginBody) (t uj : String)
    (keyResp : FetchOutcome KeyBody)
    (hok : respOk r = true) (hdata : r.body.data = some ⟨some t, uj⟩)
    (htne : t ≠ "")
    (hfail : ∀ st : Store, ∃ e, createApiKeyStrict st keyResp = .error e) :
    loginV2 ⟨sa, none, su⟩ (.ok r) keyResp
        = (.success r.body, ⟨some t, none, some uj⟩, true)
    ∧ loginV1 ⟨sa, none, su⟩ (.ok r) keyResp
        = (.success r.body, ⟨some t, none, some uj⟩, true)
    ∧ isAuthenticated ⟨some t, none, some uj⟩ = false := by
  have htruthy : truthy (some t) = true := by
    simpa [truthy] using htne
  refine ⟨?_, ?_, by simp [isAuthenticated, truthy]⟩
  · obtain ⟨e, he⟩ := hfail ⟨some t, none, some uj⟩
    simp [loginV2, hok, hdata, htruthy, ensureApiKey, truthy, he, htne]
  · obtain ⟨e, he⟩ := hfail ⟨some t, none, some uj⟩
    simp [loginV1, hok, hdata, htruthy, htne,
      lenient_unchanged_of_strict_fails _ _ e he]

/-- Witness for C2: an empty store, a 200 login response carrying a
token, and a 500 from the key endpoint. -/
theorem login_key_failure_not_propagated_witness :
    loginV2 Store.empty (.ok ⟨200, ⟨none, some ⟨some "tok", "userjson"⟩⟩⟩)
        (.ok ⟨500, ⟨some "boom", none⟩⟩)
      = (.success ⟨none, some ⟨some "tok", "userjson"⟩⟩, ⟨some "tok", none, some "userjson"⟩, true)
    ∧ loginV1 Store.empty (.ok ⟨200, ⟨none, some ⟨some "tok", "userjson"⟩⟩⟩)
        (.ok ⟨500, ⟨some "boom", none⟩⟩)
      = (.success ⟨none, some ⟨some "tok", "userjson"⟩⟩, ⟨some "tok", none, some "userjson"⟩, true)
    ∧ isAuthenticated ⟨some "tok", none, some "userjson"⟩ = false :=
  login_key_failure_not_propagated none none
    ⟨200, ⟨none, some ⟨some "tok", "userjson"⟩⟩⟩ "tok" "userjson"
    (.ok ⟨500, ⟨some "boom", none⟩⟩)
    (by decide) rfl (by decide)
    (fun st => ⟨.serviceUnavailable, rfl⟩)

/-- C10: a 2xx login response with no (truthy) access token returns
normally, writes nothing to the store, sends no key-provisioning
request, and leaves `isAuthenticated` exactly as it was — in
particular still false when it was false.  Proved for both
`AuthService` variants. -/
theorem login_no_token_writes_nothing
    (s : Store) (r : HttpResp LoginBody) (keyResp : FetchOutcome KeyBody)
    (hok : respOk r = true)
    (hnotok : ∀ d, r.body.data = some d → truthy d.accessToken = false) :
    loginV2 s (.ok r) keyResp = (.success r.body, s, false)
    ∧ loginV1 s (.ok r) keyResp = (.success r.body, s, false)
    ∧ isAuthenticated ((loginV2 s (.ok r) keyResp).2.1) = isAuthenticated s
    ∧ (isAuthenticated s = false →
        isAuthenticated ((loginV2 s (.ok r) keyResp).2.1) = false) := by
  have h2 : loginV2 s (.ok r) keyResp = (.success r.body, s, false) := by
    cases hd : r.body.data with
    | none => simp [loginV2, hok, hd]
    | some d => simp [loginV2, hok, hd, hnotok d hd]
  have h1 : loginV1 s (.ok r) keyResp = (.success r.body, s, false) := by
    cases hd : r.body.data with
    | none => simp [loginV1, hok, hd]
    | some d => simp [loginV1, hok, hd, hnotok d hd]
  refine ⟨h2, h1, by rw [h2], by intro hf; rw [h2]; exact hf⟩

/-- Witness for C10: an empty store and a 200 response whose body has
no `data` object at all. -/
theorem login_no_token_writes_nothing_witness :
    loginV2 Store.empty (.ok ⟨200, ⟨none, none⟩⟩) (.error "unused")
        = (.success ⟨none, none⟩, Store.empty, false)
    ∧ loginV1 Store.empty (.ok ⟨200, ⟨none, none⟩⟩) (.error "unused")
        = (.success ⟨none, none⟩, Store.empty, false)
    ∧ isAuthenticated ((loginV2 Store.empty (.ok ⟨200, ⟨none, none⟩⟩) (.error "unused")).2.1)
        = isAuthenticated Store.empty
    ∧ (isAuthenticated Store.empty = false →
        isAuthenticated ((loginV2 Store.empty (.ok ⟨200, ⟨none, none⟩⟩)
          (.error "unused")).2.1) = false) :=
  login_no_token_writes_nothing Store.empty ⟨200, ⟨none, none⟩⟩ (.error "unused")
    (by decide) (fun d hd => Option.noConfusion hd)

/-- C3 counterexample: a 502 response from the key endpoint — a 5xx —
is *not* signalled as the ServiceUnavailable kind: the source tests
`response.status === 500` only, so 502 lands in the generic
KeyProvisioningFailed branch with the server detail. -/
theorem createApiKey_502_counterexample :
    createApiKeyStrict Store.empty (.ok ⟨502, ⟨some "Bad Gateway", none⟩⟩)
        = .error (.keyProvisioningFailed "Bad Gateway")
    ∧ createApiKeyStrict Store.empty (.ok ⟨502, ⟨some "Bad Gateway", none⟩⟩)
        ≠ .error .serviceUnavailable := by
  refine ⟨rfl, ?_⟩
  intro h
  rw [show createApiKeyStrict Store.empty (.ok ⟨502, ⟨some "Bad Gateway", none⟩⟩)
      = .error (.keyProvisioningFailed "Bad Gateway") from rfl] at h
  simp at h

/-- C3 amended: `createApiKey` signals the Unauthenticated kind on
HTTP 401, the retryable ServiceUnavailable kind on HTTP 500 exactly
(other 5xx statuses land in the KeyProvisioningFailed kind), the
KeyProvisioningFailed kind with the server-supplied detail on every
other non-2xx status, and the distinct NetworkError kind on a
transport failure with no response; on a 2xx response with a key, the
key is persisted. -/
theorem createApiKey_error_kinds (s : Store) (resp : FetchOutcome KeyBody) :
    (∀ msg, resp = .error msg → createApiKeyStrict s resp = .error (.networkError msg))
    ∧ (∀ r, resp = .ok r → respOk r = false →
        (r.status = 401 → createApiKeyStrict s resp = .error .unauthenticated)
        ∧ (r.status = 500 → createApiKeyStrict s resp = .error .serviceUnavailable)
        ∧ (r.status ≠ 401 → r.status ≠ 500 →
            createApiKeyStrict s resp
              = .error (.keyProvisioningFailed
                  (jsOr r.body.errorsHead
                    ("API key creation failed (" ++ toString r.status ++ ")")))))
    ∧ (∀ r k, resp = .ok r → respOk r = true → r.body.dataKey = some k → k ≠ "" →
        createApiKeyStrict s resp = .ok { s with apiKey := some k }) := by
  refine ⟨?_, ?_, ?_⟩
  · rintro msg rfl
    rfl
  · rintro r rfl hbad
    refine ⟨?_, ?_, ?_⟩
    · intro h401
      simp [createApiKeyStrict, hbad, h401]
    · intro h500
      by_cases h401 : r.status = 401
      · omega
      · simp [createApiKeyStrict, hbad, h401, h500]
    · intro h401 h500
      simp [createApiKeyStrict, hbad, h401, h500]
  · rintro r k rfl hgood hkey hkne
    have ht : truthy r.body.dataKey = true := by
      rw [hkey]
      simpa [truthy] using hkne
    simp [createApiKeyStrict, hgood, ht, hkey, truthy, hkne]

/-- Witness for C3 (amended): one concrete input per error kind, plus
the success case. -/
theorem createApiKey_error_kinds_witness :
    createApiKeyStrict Store.empty (.error "down") = .error (.networkError "down")
    ∧ createApiKeyStrict Store.empty (.ok ⟨401, ⟨none, none⟩⟩) = .error .unauthenticated
    ∧ createApiKeyStrict Store.empty (.ok ⟨500, ⟨none, none⟩⟩) = .error .serviceUnavailable
    ∧ createApiKeyStrict Store.empty (.ok ⟨418, ⟨some "teapot", none⟩⟩)
        = .error (.keyProvisioningFailed
            (jsOr (some "teapot") ("API key creation failed (" ++ toString 418 ++ ")")))
    ∧ createApiKeyStrict Store.empty (.ok ⟨200, ⟨none, some "KEY"⟩⟩)
        = .ok { Store.empty with apiKey := some "KEY" } :=
  ⟨(createApiKey_error_kinds Store.empty (.error "down")).1 "down" rfl,
   ((createApiKey_error_kinds Store.empty (.ok ⟨401, ⟨none, none⟩⟩)).2.1
      ⟨401, ⟨none, none⟩⟩ rfl (by decide)).1 rfl,
   ((createApiKey_error_kinds Store.empty (.ok ⟨500, ⟨none, none⟩⟩)).2.1
      ⟨500, ⟨none, none⟩⟩ rfl (by decide)).2.1 rfl,
   ((createApiKey_error_kinds Store.empty (.ok ⟨418, ⟨some "teapot", none⟩⟩)).2.1
      ⟨418, ⟨some "teapot", none⟩⟩ rfl (by decide)).2.2 (by decide) (by decide),
   (createApiKey_error_kinds Store.empty (.ok ⟨200, ⟨none, some "KEY"⟩⟩)).2.2
      ⟨200, ⟨none, some "KEY"⟩⟩ "KEY" rfl (by decide) rfl (by decide)⟩

/-- C8 counterexample: with the `authToken` entry stored as the empty
string — a stored entry — `getAuthHeaders` omits the Authorization
header, so the header is not present "exactly when a token is
stored". -/
theorem getAuthHeaders_empty_token_counterexample :
    (Store.mk (some "") (some "k") none).authToken ≠ none
    ∧ (getAuthHeaders (Store.mk (some "") (some "k") none)).authorization = none :=
  ⟨by decide, rfl⟩

/-- C8 amended: the header set contains `Authorization: Bearer <token>`
exactly when a non-empty token is stored and the `X-Noroff-API-Key`
header exactly when a non-empty API key is stored, each decided
independently of the other; the builder is a total function (the
source never throws). -/
theorem getAuthHeaders_nonempty_spec (s : Store) :
    ((getAuthHeaders s).authorization.isSome = true ↔
      ∃ t, s.authToken = some t ∧ t ≠ "")
    ∧ (∀ t, s.authToken = some t → t ≠ "" →
        (getAuthHeaders s).authorization = some ("Bearer " ++ t))
    ∧ ((getAuthHeaders s).xNoroffApiKey.isSome = true ↔
      ∃ k, s.apiKey = some k ∧ k ≠ "")
    ∧ (∀ k, s.apiKey = some k → k ≠ "" → (getAuthHeaders s).xNoroffApiKey = some k)
    ∧ (getAuthHeaders s).contentType = "application/json" := by
  refine ⟨?_, ?_, ?_, ?_, rfl⟩
  · cases ht : s.authToken with
    | none => simp [getAuthHeaders, ht]
    | some t =>
      by_cases h : t = ""
      · simp [getAuthHeaders, ht, h]
      · simp [getAuthHeaders, ht, h]
  · intro t ht htne
    simp [getAuthHeaders, ht, htne]
  · cases hk : s.apiKey with
    | none => simp [getAuthHeaders, hk]
    | some k =>
      by_cases h : k = ""
      · simp [getAuthHeaders, hk, h]
      · simp [getAuthHeaders, hk, h]
  · intro k hk hkne
    simp [getAuthHeaders, hk, hkne]

/-- Witness for C8 (amended): a non-empty token yields the bearer
header; a non-empty key yields the API-key header. -/
theorem getAuthHeaders_nonempty_spec_witness :
    (getAuthHeaders ⟨some "t", none, none⟩).authorization = some ("Bearer " ++ "t")
    ∧ (getAuthHeaders ⟨none, some "k", none⟩).xNoroffApiKey = some "k" :=
  ⟨(getAuthHeaders_nonempty_spec ⟨some "t", none, none⟩).2.1 "t" rfl (by decide),
   (getAuthHeaders_nonempty_spec ⟨none, some "k", none⟩).2.2.2.1 "k" rfl (by decide)⟩

end SocialMedia
